import Mathlib

/-!
Verification development for a Flask blog application (`src/main.py`).

The application keeps three relational tables (users, blog posts, comments)
and exposes request handlers for registration, login, commenting and
admin-only post CRUD.  We embed the data model as lists of records, a
request context as (store, session), and each handler as a pure function
from context and validated form data to an outcome (new store, new session,
flashed messages, HTTP response).
-/

namespace Blog

/-- A row of the `users` table (`class User`, main.py lines 69-79).
`password` holds the werkzeug digest string, never the plaintext. -/
structure User where
  id : Nat
  email : String
  password : String
  name : String
deriving Repr, DecidableEq

/-- A row of the `blog_posts` table (`class BlogPost`, main.py lines 83-98).
The foreign-key column `author_id` is nullable in the schema, hence `Option`. -/
structure BlogPost where
  id : Nat
  author_id : Option Nat
  title : String
  subtitle : String
  date : String
  body : String
  img_url : String
deriving Repr, DecidableEq

/-- A row of the `comments` table (`class Comment`, main.py lines 102-111).
Both foreign-key columns are nullable in the schema, hence `Option`;
in particular SQLAlchemy's delete-time nulling can set `post_id` to `none`. -/
structure Comment where
  id : Nat
  author_id : Option Nat
  post_id : Option Nat
  text : String
  date : String
  time : String
deriving Repr, DecidableEq

/-- The relational store: the three tables, each in insertion order. -/
structure Store where
  users : List User
  posts : List BlogPost
  comments : List Comment
deriving Repr, DecidableEq

/-- Request context: the store plus the flask-login session,
recorded as the id of the logged-in user (none when anonymous). -/
structure Ctx where
  store : Store
  session : Option Nat
deriving Repr, DecidableEq

/-- The observable reply of a handler: a redirect (`redirect(url_for(...))`),
a rendered template, an aborted request (`abort(403)`), or an unhandled
Python exception escaping the handler. -/
inductive Response where
  | redirect (target : String)
  | render (template : String)
  | httpError (code : Nat)
  | exception
deriving Repr, DecidableEq

/-- What a handler call produces: the resulting context, the flashed
messages (in order), and the response. -/
structure Outcome where
  ctx : Ctx
  flashes : List String
  response : Response
deriving Repr, DecidableEq

/-- `admin_id = 1` (main.py line 36). -/
def admin_id : Nat := 1

/-! ## Credential store (werkzeug `generate_password_hash` / `check_password_hash`)

The app calls `generate_password_hash(pw, method="pbkdf2:sha256", salt_length=8)`.
Werkzeug draws a random salt of 8 characters from letters and digits and
returns the string `"pbkdf2:sha256:<iterations>$<salt>$<hex derived key>"`;
`check_password_hash` splits the digest on `$`, recomputes the derived key
from the recovered salt and the submitted password, and compares.  We model
the library with a deterministic stand-in key-derivation function that
preserves the digest format (method tag, salt, hex-encoded derived key) and
the recompute-and-compare structure; cryptographic irreversibility itself is
not modelled. -/

/-- Lower-case hex digit for a value below 16. -/
def hexDigit (n : Nat) : Char :=
  if n < 10 then Char.ofNat (48 + n) else Char.ofNat (87 + n)

/-- Two hex digits for one byte-sized value. -/
def byteHex (n : Nat) : List Char :=
  [hexDigit (n / 16 % 16), hexDigit (n % 16)]

/-- Stand-in derived key: hex-encode the salted input, character by
character.  Plays the role of the PBKDF2-SHA256 derived key. -/
def kdfBytes : List Char → List Char
  | [] => []
  | c :: t => byteHex c.toNat ++ kdfBytes t

/-- The method-and-iterations prefix of a werkzeug pbkdf2 digest. -/
def methodTag : List Char := "pbkdf2:sha256:600000".data

/-- Model of `generate_password_hash(pw, method="pbkdf2:sha256", salt_length=8)`
applied with an already-drawn salt: the digest string
`"pbkdf2:sha256:600000$" ++ salt ++ "$" ++ derived-key`. -/
def generate_password_hash (salt pw : String) : String :=
  ⟨methodTag ++ '$' :: salt.data ++ '$' :: kdfBytes (salt.data ++ pw.data)⟩

/-- Split a character list at every `$`. -/
def splitDollar : List Char → List (List Char)
  | [] => [[]]
  | c :: rest =>
    if c = '$' then [] :: splitDollar rest
    else
      match splitDollar rest with
      | [] => [[c]]
      | g :: gs => (c :: g) :: gs

/-- Model of werkzeug `check_password_hash(pwhash, password)`: split the
digest on `$` into method, salt and stored key, recompute the derived key
from the recovered salt and the submitted password, and compare.  A digest
that does not parse verifies as false rather than raising. -/
def check_password_hash (pwhash password : String) : Bool :=
  match splitDollar pwhash.data with
  | [m, salt, stored] => m == methodTag && stored == kdfBytes (salt ++ password.data)
  | _ => false

/-- The letters-and-digits alphabet werkzeug draws salt characters from. -/
def salt_alphabet : List Char :=
  "abcdefghijklmnopqrstuvwxyzABCDEFGHIJKLMNOPQRSTUVWXYZ0123456789".data

/-- Model of the random salt draw (`salt_length=8`): eight characters from
the salt alphabet, selected by a seed standing in for the entropy source. -/
def gen_salt (seed : Nat) : String :=
  ⟨(List.range 8).map (fun i => salt_alphabet.getD ((seed + i) % 62) 'a')⟩

/-! ## Repository-level helpers -/

/-- `User.query.filter_by(email=email).first()`: first user whose email is
an exact, case-sensitive match. -/
def find_user_by_email (s : Store) (email : String) : Option User :=
  s.users.find? (fun u => u.email == email)

/-- `BlogPost.query.get(post_id)`: primary-key lookup, `none` when absent. -/
def getPost (s : Store) (i : Nat) : Option BlogPost :=
  s.posts.find? (fun p => p.id == i)

/-- `User.query.get(user_id)` as used by the flask-login user loader. -/
def getUser (s : Store) (i : Nat) : Option User :=
  s.users.find? (fun u => u.id == i)

/-- Autoincrement primary key for a new user row. -/
def nextUserId (s : Store) : Nat :=
  s.users.foldr (fun u m => max u.id m) 0 + 1

/-- Autoincrement primary key for a new post row. -/
def nextPostId (s : Store) : Nat :=
  s.posts.foldr (fun p m => max p.id m) 0 + 1

/-- Autoincrement primary key for a new comment row. -/
def nextCommentId (s : Store) : Nat :=
  s.comments.foldr (fun c m => max c.id m) 0 + 1

/-- `current_user`: resolve the session to a user row via the user loader;
an absent or dangling session means the identity is anonymous. -/
def currentUser (ctx : Ctx) : Option User :=
  ctx.session.bind (fun uid => getUser ctx.store uid)

/-- Does a post row with this id exist? -/
def post_exists (s : Store) (i : Nat) : Bool :=
  s.posts.any (fun p => p.id == i)

/-- The referential invariant on comments: every non-null `post_id`
names an existing post row. -/
def comments_ref_ok (s : Store) : Bool :=
  s.comments.all (fun c =>
    match c.post_id with
    | none => true
    | some i => post_exists s i)

/-! ## Date and time stamps

The handlers stamp `date.today().strftime("%B %d, %Y")` and
`datetime.now().strftime("%X")`.  We model the wall clock as a record and
render the two fixed formats explicitly. -/

/-- The wall clock visible to a handler. -/
structure Clock where
  year : Nat
  month : Nat
  day : Nat
  hour : Nat
  minute : Nat
  second : Nat
deriving Repr, DecidableEq

/-- Full English month name, as `strftime("%B")` renders it. -/
def monthName : Nat → String
  | 1 => "January" | 2 => "February" | 3 => "March" | 4 => "April"
  | 5 => "May" | 6 => "June" | 7 => "July" | 8 => "August"
  | 9 => "September" | 10 => "October" | 11 => "November" | 12 => "December"
  | _ => ""

/-- Zero-padded two-digit rendering, as `%d`, `%H`, `%M`, `%S` use. -/
def pad2 (n : Nat) : String :=
  if n < 10 then "0" ++ toString n else toString n

/-- `date.today().strftime("%B %d, %Y")`, e.g. `"April 02, 2025"`. -/
def formatDateB (c : Clock) : String :=
  monthName c.month ++ " " ++ pad2 c.day ++ ", " ++ toString c.year

/-- `datetime.now().strftime("%X")`, rendered as `HH:MM:SS`. -/
def formatTimeX (c : Clock) : String :=
  pad2 c.hour ++ ":" ++ pad2 c.minute ++ ":" ++ pad2 c.second

/-! ## Route guards -/

/-- `@login_required` (flask-login): an anonymous identity is redirected to
the login view and the handler body never runs; otherwise the handler runs
with the resolved current user. -/
def login_required (ctx : Ctx) (handler : User → Outcome) : Outcome :=
  match currentUser ctx with
  | none => { ctx := ctx, flashes := [], response := .redirect "login" }
  | some u => handler u

/-- `admin_only` (main.py lines 57-65): `abort(403)` when
`current_user.id != admin_id`, otherwise continue with the route function. -/
def admin_only (u : User) (ctx : Ctx) (handler : Outcome) : Outcome :=
  if u.id ≠ admin_id then { ctx := ctx, flashes := [], response := .httpError 403 }
  else handler

/-! ## Handlers (the POST branches, with the form already validated) -/

/-- `register` (main.py lines 123-148), POST branch with a validated form:
duplicate-email lookup first; on a duplicate, flash and redirect to login
with no write; otherwise hash the password (salt drawn from `seed`),
persist the new user and log them in. -/
def register (ctx : Ctx) (email password name : String) (seed : Nat) : Outcome :=
  match find_user_by_email ctx.store email with
  | some _ =>
    { ctx := ctx
      flashes := ["You\x27ve already signed up with that email, log in instead!"]
      response := .redirect "login" }
  | none =>
    let new_user : User :=
      { id := nextUserId ctx.store
        email := email
        password := generate_password_hash (gen_salt seed) password
        name := name }
    { ctx := { store := { ctx.store with users := ctx.store.users ++ [new_user] }
               session := some new_user.id }
      flashes := []
      response := .redirect "get_all_posts" }

/-- `login` (main.py lines 152-177), POST branch with a validated form:
email lookup, then digest verification, each failure with its own flash
message and no session; success binds the session to the user id. -/
def login (ctx : Ctx) (email password : String) : Outcome :=
  match find_user_by_email ctx.store email with
  | none =>
    { ctx := ctx
      flashes := ["That email does not exist, please try again"]
      response := .redirect "login" }
  | some user =>
    if ¬ check_password_hash user.password password then
      { ctx := ctx
        flashes := ["Password incorrect, please try again"]
        response := .redirect "login" }
    else
      { ctx := { store := ctx.store, session := some user.id }
        flashes := []
        response := .redirect "get_all_posts" }

/-- `show_post` (main.py lines 186-208), POST branch with a validated
comment form: the post lookup result `requested_post` is never consulted on
this branch; an anonymous identity is flashed and redirected to login
before any write; an authenticated one gets a comment row stamped with the
current date and time and keyed to the given `post_id`. -/
def show_post (ctx : Ctx) (post_id : Nat) (text : String) (clock : Clock) : Outcome :=
  match currentUser ctx with
  | none =>
    { ctx := ctx
      flashes := ["You need to login or register to comment"]
      response := .redirect "login" }
  | some u =>
    let new_comment : Comment :=
      { id := nextCommentId ctx.store
        author_id := some u.id
        post_id := some post_id
        text := text
        date := formatDateB clock
        time := formatTimeX clock }
    { ctx := { store := { ctx.store with comments := ctx.store.comments ++ [new_comment] }
               session := ctx.session }
      flashes := []
      response := .redirect "show_post" }

/-- Body of `add_new_post` (main.py lines 245-261), POST branch with a
validated form: persist a new post authored by the current user, dated with
the current day. -/
def add_new_post_body (ctx : Ctx) (u : User)
    (title subtitle body img_url : String) (clock : Clock) : Outcome :=
  let new_post : BlogPost :=
    { id := nextPostId ctx.store
      author_id := some u.id
      title := title
      subtitle := subtitle
      date := formatDateB clock
      body := body
      img_url := img_url }
  { ctx := { store := { ctx.store with posts := ctx.store.posts ++ [new_post] }
             session := ctx.session }
    flashes := []
    response := .redirect "get_all_posts" }

/-- The per-row effect of `edit_post`: on the row with the edited id,
reassign exactly the title, subtitle, img_url and body columns; leave every
other row alone. -/
def editOne (post_id : Nat) (title subtitle body img_url : String) (p : BlogPost) : BlogPost :=
  if p.id == post_id then
    { p with title := title, subtitle := subtitle, img_url := img_url, body := body }
  else p

/-- Body of `edit_post` (main.py lines 267-285), POST branch with a
validated form: the null-unchecked lookup is dereferenced at once
(`post.title`), so an absent id raises; otherwise exactly the title,
subtitle, img_url and body columns of that row are reassigned. -/
def edit_post_body (ctx : Ctx) (post_id : Nat)
    (title subtitle body img_url : String) : Outcome :=
  match getPost ctx.store post_id with
  | none => { ctx := ctx, flashes := [], response := .exception }
  | some _ =>
    let posts := ctx.store.posts.map (editOne post_id title subtitle body img_url)
    { ctx := { store := { ctx.store with posts := posts }, session := ctx.session }
      flashes := []
      response := .redirect "show_post" }

/-- Body of `delete_post` (main.py lines 291-295): the null-unchecked
lookup is handed to `db.session.delete`, which raises on `None`; on an
existing row the post is deleted, and SQLAlchemy's default relationship
cascade nulls out `post_id` on the comments that referenced it at flush
time (no delete cascade is configured on `BlogPost.comments`). -/
def delete_post_body (ctx : Ctx) (post_id : Nat) : Outcome :=
  match getPost ctx.store post_id with
  | none => { ctx := ctx, flashes := [], response := .exception }
  | some p =>
    let comments := ctx.store.comments.map (fun c =>
      if c.post_id == some p.id then { c with post_id := none } else c)
    let posts := ctx.store.posts.filter (fun q => ¬ q.id == p.id)
    { ctx := { store := { ctx.store with posts := posts, comments := comments }
               session := ctx.session }
      flashes := []
      response := .redirect "get_all_posts" }

/-- The `/new-post` route: `@login_required` then `@admin_only` around the
handler body. -/
def add_new_post (ctx : Ctx) (title subtitle body img_url : String) (clock : Clock) : Outcome :=
  login_required ctx (fun u =>
    admin_only u ctx (add_new_post_body ctx u title subtitle body img_url clock))

/-- The `/edit-post/<post_id>` route: guards then body. -/
def edit_post (ctx : Ctx) (post_id : Nat)
    (title subtitle body img_url : String) : Outcome :=
  login_required ctx (fun u =>
    admin_only u ctx (edit_post_body ctx post_id title subtitle body img_url))

/-- The `/delete/<post_id>` route: guards then body. -/
def delete_post (ctx : Ctx) (post_id : Nat) : Outcome :=
  login_required ctx (fun u =>
    admin_only u ctx (delete_post_body ctx post_id))

/-! ## Database URL normalization (main.py lines 39-41) -/

/-- Python `s.startswith(p)`. -/
def startswith (s p : String) : Bool :=
  p.data.isPrefixOf s.data

/-- Python `s.replace(old, new, 1)` on character lists (`old` nonempty):
rewrite the first occurrence of `old`, leave everything else alone. -/
def replaceFirst (old new : List Char) : List Char → List Char
  | [] => []
  | c :: rest =>
    if old.isPrefixOf (c :: rest) then new ++ (c :: rest).drop old.length
    else c :: replaceFirst old new rest

/-- The legacy-scheme normalization applied to `DATABASE_URL`:
`if heroku_url.startswith("postgres://"): heroku_url =
heroku_url.replace("postgres://", "postgresql://", 1)`. -/
def normalize_db_url (s : String) : String :=
  if startswith s "postgres://" then
    ⟨replaceFirst "postgres://".data "postgresql://".data s.data⟩
  else s

/-- The creation-time content of a comment row apart from the (nullable)
parent-post key: id, author, text, and the two stamp strings.  Used to
state that these fields are immutable under the other operations. -/
def commentStamps (s : Store) : List (Nat × Option Nat × String × String × String) :=
  s.comments.map (fun c => (c.id, c.author_id, c.text, c.date, c.time))

/-! ## Concrete sample data (used to instantiate the theorems below) -/

/-- The admin row: its id is the configured `admin_id = 1`. -/
def sampleAdmin : User :=
  { id := 1, email := "admin@blog.io"
    password := generate_password_hash "aaaaaaaa" "adminpw", name := "Admin" }

/-- An ordinary registered reader (id 2, not the admin). -/
def sampleUser : User :=
  { id := 2, email := "reader@blog.io"
    password := generate_password_hash "bbbbbbbb" "readerpw", name := "Reader" }

/-- One published post authored by the admin. -/
def samplePost : BlogPost :=
  { id := 1, author_id := some 1, title := "T1", subtitle := "S1"
    date := "April 02, 2025", body := "B1", img_url := "http://x/y.png" }

/-- One comment by the reader on the sample post. -/
def sampleComment : Comment :=
  { id := 1, author_id := some 2, post_id := some 1, text := "first"
    date := "April 02, 2025", time := "13:05:09" }

/-- A store holding the rows above. -/
def sampleStore : Store :=
  { users := [sampleAdmin, sampleUser], posts := [samplePost], comments := [sampleComment] }

/-- A fixed wall clock. -/
def sampleClock : Clock :=
  { year := 2025, month := 4, day := 2, hour := 13, minute := 5, second := 9 }

/-! ## Supporting lemmas -/

theorem kdfBytes_length (l : List Char) : (kdfBytes l).length = 2 * l.length := by
  induction l with
  | nil => rfl
  | cons c t ih => simp [kdfBytes, byteHex, ih]; omega

theorem hexDigit_ne_dollar {n : Nat} (h : n < 16) : hexDigit n ≠ '$' := by
  have hall : ∀ j : Fin 16, hexDigit j.val ≠ '$' := by decide
  exact hall ⟨n, h⟩

theorem kdfBytes_ne_dollar {l : List Char} {c : Char} (h : c ∈ kdfBytes l) : c ≠ '$' := by
  induction l with
  | nil => simp [kdfBytes] at h
  | cons d t ih =>
    rw [show kdfBytes (d :: t)
        = hexDigit (d.toNat / 16 % 16) :: hexDigit (d.toNat % 16) :: kdfBytes t from rfl] at h
    rcases List.mem_cons.mp h with h1 | h1
    · exact h1 ▸ hexDigit_ne_dollar (Nat.mod_lt _ (by norm_num))
    rcases List.mem_cons.mp h1 with h2 | h2
    · exact h2 ▸ hexDigit_ne_dollar (Nat.mod_lt _ (by norm_num))
    · exact ih h2

theorem splitDollar_no_dollar {a : List Char} (h : '$' ∉ a) : splitDollar a = [a] := by
  induction a with
  | nil => rfl
  | cons c t ih =>
    have hc : ¬ c = '$' := fun e => h (e ▸ List.mem_cons_self c t)
    have ht : '$' ∉ t := fun m => h (List.mem_cons_of_mem _ m)
    simp [splitDollar, hc, ih ht]

theorem splitDollar_append {a : List Char} (t : List Char) (h : '$' ∉ a) :
    splitDollar (a ++ '$' :: t) = a :: splitDollar t := by
  induction a with
  | nil => simp [splitDollar]
  | cons c b ih =>
    have hc : ¬ c = '$' := fun e => h (e ▸ List.mem_cons_self c b)
    have hb : '$' ∉ b := fun m => h (List.mem_cons_of_mem _ m)
    simp [splitDollar, hc, ih hb]

theorem splitDollar_generate {salt pw : String} (h : '$' ∉ salt.data) :
    splitDollar (generate_password_hash salt pw).data
      = [methodTag, salt.data, kdfBytes (salt.data ++ pw.data)] := by
  have hm : ('$' : Char) ∉ methodTag := by decide
  have hk : ('$' : Char) ∉ kdfBytes (salt.data ++ pw.data) :=
    fun hmem => (kdfBytes_ne_dollar hmem) rfl
  show splitDollar (methodTag ++ '$' :: (salt.data ++ '$' :: kdfBytes (salt.data ++ pw.data)))
      = _
  rw [splitDollar_append _ hm, splitDollar_append _ h, splitDollar_no_dollar hk]

theorem check_generate {salt pw : String} (h : '$' ∉ salt.data) :
    check_password_hash (generate_password_hash salt pw) pw = true := by
  unfold check_password_hash
  rw [splitDollar_generate h]
  simp

theorem generate_ne_plaintext (salt pw : String) : generate_password_hash salt pw ≠ pw := by
  intro e
  have hlen : (generate_password_hash salt pw).data.length = pw.data.length := by rw [e]
  have h1 : (generate_password_hash salt pw).data.length
      = methodTag.length + 1 + salt.data.length + 1
        + (kdfBytes (salt.data ++ pw.data)).length := by
    show (methodTag ++ '$' :: (salt.data ++ '$' :: kdfBytes (salt.data ++ pw.data))).length = _
    simp [List.length_append]
    omega
  have h2 : methodTag.length = 20 := by decide
  have h3 : (kdfBytes (salt.data ++ pw.data)).length
      = 2 * (salt.data.length + pw.data.length) := by
    rw [kdfBytes_length, List.length_append]
  omega

theorem gen_salt_length (seed : Nat) : (gen_salt seed).data.length = 8 := by
  simp [gen_salt]

theorem gen_salt_no_dollar (seed : Nat) : '$' ∉ (gen_salt seed).data := by
  intro hmem
  have hall : ∀ j : Fin 62, ¬ salt_alphabet.getD j.val 'a' = '$' := by decide
  have h : '$' ∈ (List.range 8).map
      (fun i => salt_alphabet.getD ((seed + i) % 62) 'a') := hmem
  rw [List.mem_map] at h
  obtain ⟨i, _, hi⟩ := h
  exact hall ⟨(seed + i) % 62, Nat.mod_lt _ (by norm_num)⟩ hi

theorem replaceFirst_cons_self (c : Char) (rest new t : List Char) :
    replaceFirst (c :: rest) new ((c :: rest) ++ t) = new ++ t := by
  have hpre : (c :: rest).isPrefixOf ((c :: rest) ++ t) = true :=
    List.isPrefixOf_iff_prefix.mpr (List.prefix_append _ _)
  show replaceFirst (c :: rest) new (c :: (rest ++ t)) = new ++ t
  simp only [replaceFirst, ← List.cons_append, hpre, if_true]
  rw [List.drop_left]

/-! ## Claims -/

/-- Claim C8: a configured database connection string that starts with the
legacy prefix `postgres://` has exactly that leading prefix occurrence
rewritten to `postgresql://` before the string configures the store, the
remainder of the string kept verbatim; a string not starting with the
prefix is used unchanged. -/
theorem db_url_legacy_scheme_normalized (s : String) :
    (startswith s "postgres://" = true →
      normalize_db_url s = ⟨"postgresql://".data ++ s.data.drop 11⟩) ∧
    (startswith s "postgres://" = false → normalize_db_url s = s) := by
  constructor
  · intro h
    obtain ⟨t, ht⟩ := List.isPrefixOf_iff_prefix.mp h
    have h11 : ("postgres://".data).length = 11 := by decide
    have hdrop : s.data.drop 11 = t := by rw [← ht, ← h11, List.drop_left]
    have hsplit : "postgres://".data = 'p' :: "ostgres://".data := by decide
    have hrepl : replaceFirst "postgres://".data "postgresql://".data s.data
        = "postgresql://".data ++ t := by
      rw [← ht, hsplit]
      exact replaceFirst_cons_self 'p' ("ostgres://".data) ("postgresql://".data) t
    rw [normalize_db_url, if_pos h, hrepl, hdrop]
  · intro h
    rw [normalize_db_url, if_neg (by simp [h])]

/-- Witness for C8: the prefixed string is rewritten (later occurrences of
the substring untouched), and an unprefixed string passes through. -/
theorem db_url_legacy_scheme_normalized_witness :
    (startswith "postgres://u@h/db?x=postgres://" "postgres://" = true ∧
      normalize_db_url "postgres://u@h/db?x=postgres://"
        = ⟨"postgresql://".data ++ ("postgres://u@h/db?x=postgres://").data.drop 11⟩) ∧
    (startswith "sqlite:///blog.db" "postgres://" = false ∧
      normalize_db_url "sqlite:///blog.db" = "sqlite:///blog.db") :=
  ⟨⟨by decide, (db_url_legacy_scheme_normalized "postgres://u@h/db?x=postgres://").1 (by decide)⟩,
   ⟨by decide, (db_url_legacy_scheme_normalized "sqlite:///blog.db").2 (by decide)⟩⟩

/-- Claim C5: for valid (email, password, name) with the email not yet
registered, registration followed by `find_user_by_email` returns a user
whose stored digest is the salted pbkdf2-sha256-style digest of the
password with a salt of the configured length 8, is never equal to the
plaintext, and verifies against the plaintext; the digest parses into the
method tag, the salt and the derived key. -/
theorem register_then_find_hashes_password (ctx : Ctx) (email pw name : String) (seed : Nat)
    (hfresh : find_user_by_email ctx.store email = none) :
    ∃ u : User,
      find_user_by_email (register ctx email pw name seed).ctx.store email = some u ∧
      u.password = generate_password_hash (gen_salt seed) pw ∧
      u.password ≠ pw ∧
      check_password_hash u.password pw = true ∧
      (gen_salt seed).data.length = 8 ∧
      splitDollar u.password.data
        = [methodTag, (gen_salt seed).data, kdfBytes ((gen_salt seed).data ++ pw.data)] := by
  refine ⟨{ id := nextUserId ctx.store, email := email
            password := generate_password_hash (gen_salt seed) pw, name := name }, ?_, rfl,
          generate_ne_plaintext _ _, check_generate (gen_salt_no_dollar seed),
          gen_salt_length seed, splitDollar_generate (gen_salt_no_dollar seed)⟩
  rw [register, hfresh]
  show List.find? _ (ctx.store.users ++ [_]) = _
  rw [List.find?_append]
  rw [show List.find? (fun u => u.email == email) ctx.store.users = none from hfresh]
  simp [List.find?]

/-- Witness for C5: a concrete fresh registration on the sample store. -/
theorem register_then_find_hashes_password_witness :
    find_user_by_email sampleStore "new@blog.io" = none ∧
    ∃ u : User,
      find_user_by_email
          (register ⟨sampleStore, none⟩ "new@blog.io" "pw123" "Newbie" 0).ctx.store
          "new@blog.io" = some u ∧
      u.password = generate_password_hash (gen_salt 0) "pw123" ∧
      u.password ≠ "pw123" ∧
      check_password_hash u.password "pw123" = true ∧
      (gen_salt 0).data.length = 8 ∧
      splitDollar u.password.data
        = [methodTag, (gen_salt 0).data, kdfBytes ((gen_salt 0).data ++ "pw123".data)] :=
  ⟨by decide,
   register_then_find_hashes_password ⟨sampleStore, none⟩ "new@blog.io" "pw123" "Newbie" 0
     (by decide)⟩

/-- Claim C2: an authenticated user whose id differs from the configured
admin id gets a Forbidden (403) outcome from each of the three admin
operations — create, update, delete — and the store and session are left
unchanged: no post row is created, mutated or deleted. -/
theorem admin_ops_forbidden_for_non_admin (ctx : Ctx) (u : User)
    (hu : currentUser ctx = some u) (hne : u.id ≠ admin_id)
    (title subtitle body img_url : String) (clock : Clock) (pid : Nat) :
    add_new_post ctx title subtitle body img_url clock
      = { ctx := ctx, flashes := [], response := .httpError 403 } ∧
    edit_post ctx pid title subtitle body img_url
      = { ctx := ctx, flashes := [], response := .httpError 403 } ∧
    delete_post ctx pid
      = { ctx := ctx, flashes := [], response := .httpError 403 } := by
  refine ⟨?_, ?_, ?_⟩ <;>
    simp [add_new_post, edit_post, delete_post, login_required, admin_only, hu, hne]

/-- Witness for C2: the sample reader (id 2) is rejected by all three
admin operations on the sample store. -/
theorem admin_ops_forbidden_for_non_admin_witness :
    currentUser ⟨sampleStore, some 2⟩ = some sampleUser ∧
    sampleUser.id ≠ admin_id ∧
    add_new_post ⟨sampleStore, some 2⟩ "T2" "S2" "B2" "http://x/z.png" sampleClock
      = { ctx := ⟨sampleStore, some 2⟩, flashes := [], response := .httpError 403 } ∧
    edit_post ⟨sampleStore, some 2⟩ 1 "T2" "S2" "B2" "http://x/z.png"
      = { ctx := ⟨sampleStore, some 2⟩, flashes := [], response := .httpError 403 } ∧
    delete_post ⟨sampleStore, some 2⟩ 1
      = { ctx := ⟨sampleStore, some 2⟩, flashes := [], response := .httpError 403 } := by
  have h := admin_ops_forbidden_for_non_admin ⟨sampleStore, some 2⟩ sampleUser
    (by decide) (by decide) "T2" "S2" "B2" "http://x/z.png" sampleClock 1
  exact ⟨by decide, by decide, h.1, h.2.1, h.2.2⟩

/-- Claim C3: a second registration with an already-present email is
detected by the email lookup before any write and recovered as a flash
message plus a redirect to the login view; the store — in particular the
user table — is left unchanged, so no second row with that email is
created. -/
theorem register_duplicate_email_rejected (ctx : Ctx) (email pw name : String) (seed : Nat)
    (u0 : User) (hdup : find_user_by_email ctx.store email = some u0) :
    register ctx email pw name seed
      = { ctx := ctx
          flashes := ["You\x27ve already signed up with that email, log in instead!"]
          response := .redirect "login" } := by
  rw [register, hdup]

/-- Witness for C3: re-registering the sample reader's email changes
nothing and redirects to login. -/
theorem register_duplicate_email_rejected_witness :
    find_user_by_email sampleStore "reader@blog.io" = some sampleUser ∧
    register ⟨sampleStore, none⟩ "reader@blog.io" "otherpw" "Imposter" 3
      = { ctx := ⟨sampleStore, none⟩
          flashes := ["You\x27ve already signed up with that email, log in instead!"]
          response := .redirect "login" } :=
  ⟨by decide,
   register_duplicate_email_rejected ⟨sampleStore, none⟩ "reader@blog.io" "otherpw" "Imposter" 3
     sampleUser (by decide)⟩

/-- Claim C4: a login attempt whose email matches no stored user fails
with its own distinct flash message and establishes no session; one whose
email matches a user but whose password does not verify against the stored
digest fails with the other distinct message and no session; only when both
checks pass is the session bound to that user's id. -/
theorem login_checks_email_then_password (ctx : Ctx) (email password : String) :
    (find_user_by_email ctx.store email = none →
      login ctx email password
        = { ctx := ctx, flashes := ["That email does not exist, please try again"]
            response := .redirect "login" }) ∧
    (∀ u : User, find_user_by_email ctx.store email = some u →
      check_password_hash u.password password = false →
      login ctx email password
        = { ctx := ctx, flashes := ["Password incorrect, please try again"]
            response := .redirect "login" }) ∧
    (∀ u : User, find_user_by_email ctx.store email = some u →
      check_password_hash u.password password = true →
      login ctx email password
        = { ctx := { store := ctx.store, session := some u.id }, flashes := []
            response := .redirect "get_all_posts" }) ∧
    "That email does not exist, please try again"
      ≠ "Password incorrect, please try again" := by
  refine ⟨fun h => by rw [login, h], fun u hu hp => ?_, fun u hu hp => ?_, by decide⟩
  · rw [login, hu]; simp [hp]
  · rw [login, hu]; simp [hp]

/-- Witness for C4: the three login outcomes, each at a concrete input on
the sample store. -/
theorem login_checks_email_then_password_witness :
    (find_user_by_email sampleStore "ghost@blog.io" = none ∧
      login ⟨sampleStore, none⟩ "ghost@blog.io" "pw"
        = { ctx := ⟨sampleStore, none⟩
            flashes := ["That email does not exist, please try again"]
            response := .redirect "login" }) ∧
    (find_user_by_email sampleStore "reader@blog.io" = some sampleUser ∧
      check_password_hash sampleUser.password "wrongpw" = false ∧
      login ⟨sampleStore, none⟩ "reader@blog.io" "wrongpw"
        = { ctx := ⟨sampleStore, none⟩
            flashes := ["Password incorrect, please try again"]
            response := .redirect "login" }) ∧
    (check_password_hash sampleUser.password "readerpw" = true ∧
      login ⟨sampleStore, none⟩ "reader@blog.io" "readerpw"
        = { ctx := { store := sampleStore, session := some sampleUser.id }, flashes := []
            response := .redirect "get_all_posts" }) := by
  refine ⟨⟨by decide, (login_checks_email_then_password ⟨sampleStore, none⟩
            "ghost@blog.io" "pw").1 (by decide)⟩,
          ⟨by decide, by decide, (login_checks_email_then_password ⟨sampleStore, none⟩
            "reader@blog.io" "wrongpw").2.1 sampleUser (by decide) (by decide)⟩,
          ⟨by decide, (login_checks_email_then_password ⟨sampleStore, none⟩
            "reader@blog.io" "readerpw").2.2.1 sampleUser (by decide) (by decide)⟩⟩

theorem commentStamps_delete_post (ctx : Ctx) (pid : Nat) :
    commentStamps (delete_post ctx pid).ctx.store = commentStamps ctx.store := by
  rw [delete_post, login_required]
  cases hcu : currentUser ctx with
  | none => rfl
  | some u =>
    simp only [admin_only]
    by_cases hadm : u.id ≠ admin_id
    · rw [if_pos hadm]
    · rw [if_neg hadm, delete_post_body]
      cases hp : getPost ctx.store pid with
      | none => rfl
      | some p =>
        simp only [commentStamps, List.map_map]
        refine List.map_congr_left (fun c _ => ?_)
        by_cases hc : (c.post_id == some p.id) = true <;> simp [Function.comp, hc]

theorem commentStamps_edit_post (ctx : Ctx) (pid : Nat)
    (title subtitle body img_url : String) :
    commentStamps (edit_post ctx pid title subtitle body img_url).ctx.store
      = commentStamps ctx.store := by
  rw [edit_post, login_required]
  cases hcu : currentUser ctx with
  | none => rfl
  | some u =>
    simp only [admin_only]
    by_cases hadm : u.id ≠ admin_id
    · rw [if_pos hadm]
    · rw [if_neg hadm, edit_post_body]
      cases hp : getPost ctx.store pid with
      | none => rfl
      | some p => rfl

/-- Claim C6: a comment submission by an anonymous visitor is turned away
to the login view before any row is written; one by an authenticated user
U persists exactly one comment carrying U's id as author, the given post
id, the submitted text, and the creation date and time-of-day rendered as
the fixed-format strings; those creation-time fields are untouched by the
post-mutating operations afterwards. -/
theorem show_post_comment_rules (ctx : Ctx) (pid : Nat) (text : String) (clock : Clock) :
    (currentUser ctx = none →
      show_post ctx pid text clock
        = { ctx := ctx, flashes := ["You need to login or register to comment"]
            response := .redirect "login" }) ∧
    (∀ u : User, currentUser ctx = some u →
      (show_post ctx pid text clock).ctx.store.comments
        = ctx.store.comments ++
            [{ id := nextCommentId ctx.store, author_id := some u.id, post_id := some pid
               text := text, date := formatDateB clock, time := formatTimeX clock }] ∧
      (show_post ctx pid text clock).ctx.store.posts = ctx.store.posts ∧
      (show_post ctx pid text clock).ctx.store.users = ctx.store.users) ∧
    formatDateB clock
      = monthName clock.month ++ " " ++ pad2 clock.day ++ ", " ++ toString clock.year ∧
    formatTimeX clock
      = pad2 clock.hour ++ ":" ++ pad2 clock.minute ++ ":" ++ pad2 clock.second ∧
    (∀ ctx2 pid2, commentStamps (delete_post ctx2 pid2).ctx.store = commentStamps ctx2.store) ∧
    (∀ ctx2 pid2 t2 s2 b2 i2,
      commentStamps (edit_post ctx2 pid2 t2 s2 b2 i2).ctx.store = commentStamps ctx2.store) := by
  refine ⟨fun h => by rw [show_post, h], fun u hu => ?_, rfl, rfl,
          commentStamps_delete_post, commentStamps_edit_post⟩
  rw [show_post, hu]
  exact ⟨rfl, rfl, rfl⟩

/-- Witness for C6: both outcomes at concrete inputs — an anonymous
submission is turned away; the sample reader's submission appends the
stamped row. -/
theorem show_post_comment_rules_witness :
    (currentUser ⟨sampleStore, none⟩ = none ∧
      show_post ⟨sampleStore, none⟩ 1 "nice" sampleClock
        = { ctx := ⟨sampleStore, none⟩
            flashes := ["You need to login or register to comment"]
            response := .redirect "login" }) ∧
    (currentUser ⟨sampleStore, some 2⟩ = some sampleUser ∧
      (show_post ⟨sampleStore, some 2⟩ 1 "nice" sampleClock).ctx.store.comments
        = sampleStore.comments ++
            [{ id := nextCommentId sampleStore, author_id := some sampleUser.id
               post_id := some 1, text := "nice", date := formatDateB sampleClock
               time := formatTimeX sampleClock }]) :=
  ⟨⟨by decide,
    (show_post_comment_rules ⟨sampleStore, none⟩ 1 "nice" sampleClock).1 (by decide)⟩,
   ⟨by decide,
    ((show_post_comment_rules ⟨sampleStore, some 2⟩ 1 "nice" sampleClock).2.1 sampleUser
      (by decide)).1⟩⟩

/-- Claim C7: editing an existing post through the admin route rewrites
exactly the title, subtitle, body and cover-image columns of that row; the
row's author and original publish date (and id) are unchanged, every other
post row is unchanged, and the user and comment tables and the session are
unchanged. -/
theorem edit_post_frame (ctx : Ctx) (pid : Nat) (p : BlogPost) (u : User)
    (hu : currentUser ctx = some u) (hadmin : u.id = admin_id)
    (hp : getPost ctx.store pid = some p)
    (title subtitle body img_url : String) :
    (edit_post ctx pid title subtitle body img_url).ctx.store.posts
      = ctx.store.posts.map (editOne pid title subtitle body img_url) ∧
    (edit_post ctx pid title subtitle body img_url).ctx.store.users = ctx.store.users ∧
    (edit_post ctx pid title subtitle body img_url).ctx.store.comments
      = ctx.store.comments ∧
    (edit_post ctx pid title subtitle body img_url).ctx.session = ctx.session ∧
    (∀ q : BlogPost,
      (editOne pid title subtitle body img_url q).author_id = q.author_id ∧
      (editOne pid title subtitle body img_url q).date = q.date ∧
      (editOne pid title subtitle body img_url q).id = q.id) ∧
    (∀ q : BlogPost, q.id ≠ pid → editOne pid title subtitle body img_url q = q) ∧
    (∀ q : BlogPost, q.id = pid →
      (editOne pid title subtitle body img_url q).title = title ∧
      (editOne pid title subtitle body img_url q).subtitle = subtitle ∧
      (editOne pid title subtitle body img_url q).body = body ∧
      (editOne pid title subtitle body img_url q).img_url = img_url) := by
  have hroute : edit_post ctx pid title subtitle body img_url
      = edit_post_body ctx pid title subtitle body img_url := by
    simp [edit_post, login_required, admin_only, hu, hadmin]
  have hbody : edit_post_body ctx pid title subtitle body img_url
      = { ctx := { store := { ctx.store with
                    posts := ctx.store.posts.map (editOne pid title subtitle body img_url) }
                   session := ctx.session }
          flashes := [], response := .redirect "show_post" } := by
    rw [edit_post_body, hp]
  rw [hroute, hbody]
  refine ⟨rfl, rfl, rfl, rfl, ?_, ?_, ?_⟩
  · intro q
    rw [editOne]
    split <;> exact ⟨rfl, rfl, rfl⟩
  · intro q hq
    rw [editOne, if_neg (by simp [hq])]
  · intro q hq
    rw [editOne, if_pos (by simp [hq])]
    exact ⟨rfl, rfl, rfl, rfl⟩

/-- Witness for C7: the admin edits the sample post; author, date and the
other tables survive. -/
theorem edit_post_frame_witness :
    currentUser ⟨sampleStore, some 1⟩ = some sampleAdmin ∧
    sampleAdmin.id = admin_id ∧
    getPost sampleStore 1 = some samplePost ∧
    (edit_post ⟨sampleStore, some 1⟩ 1 "T1b" "S2" "B2" "http://x/z.png").ctx.store.posts
      = sampleStore.posts.map (editOne 1 "T1b" "S2" "B2" "http://x/z.png") ∧
    (editOne 1 "T1b" "S2" "B2" "http://x/z.png" samplePost).author_id = samplePost.author_id ∧
    (editOne 1 "T1b" "S2" "B2" "http://x/z.png" samplePost).date = samplePost.date := by
  have h := edit_post_frame ⟨sampleStore, some 1⟩ 1 samplePost sampleAdmin
    (by decide) (by decide) (by decide) "T1b" "S2" "B2" "http://x/z.png"
  exact ⟨by decide, by decide, by decide, h.1, (h.2.2.2.2.1 samplePost).1,
    (h.2.2.2.2.1 samplePost).2.1⟩

theorem delete_post_body_store (ctx : Ctx) (pid : Nat) (p : BlogPost)
    (hp : getPost ctx.store pid = some p) :
    (delete_post_body ctx pid).ctx.store
      = { users := ctx.store.users
          posts := ctx.store.posts.filter (fun q => ¬ q.id == p.id)
          comments := ctx.store.comments.map (fun c =>
            if c.post_id == some p.id then { c with post_id := none } else c) } := by
  rw [delete_post_body, hp]

/-- Claim C1: deleting an existing post through the admin route removes
that post row, and at flush time every comment that referenced it has its
parent-post key resolved to null rather than left dangling; so if the
store satisfied the referential invariant before, it satisfies it after —
no comment references a post id for which no post row exists. -/
theorem delete_post_resolves_comment_refs (ctx : Ctx) (pid : Nat) (p : BlogPost) (u : User)
    (hu : currentUser ctx = some u) (hadmin : u.id = admin_id)
    (hp : getPost ctx.store pid = some p)
    (hinv : comments_ref_ok ctx.store = true) :
    comments_ref_ok (delete_post ctx pid).ctx.store = true ∧
    (∀ c ∈ (delete_post ctx pid).ctx.store.comments, c.post_id ≠ some p.id) ∧
    post_exists (delete_post ctx pid).ctx.store p.id = false := by
  have hroute : delete_post ctx pid = delete_post_body ctx pid := by
    simp [delete_post, login_required, admin_only, hu, hadmin]
  rw [hroute, delete_post_body_store ctx pid p hp]
  refine ⟨?_, ?_, ?_⟩
  · rw [comments_ref_ok, List.all_eq_true]
    intro c' hc'
    rcases List.mem_map.mp hc' with ⟨c0, hc0, hmap⟩
    by_cases hcase : (c0.post_id == some p.id) = true
    · rw [if_pos hcase] at hmap
      rw [← hmap]
    · rw [if_neg hcase] at hmap
      rw [← hmap]
      cases hpo : c0.post_id with
      | none => rfl
      | some j =>
        show post_exists _ j = true
        have hj : post_exists ctx.store j = true := by
          have := (List.all_eq_true.mp (by rw [← comments_ref_ok]; exact hinv)) c0 hc0
          rw [hpo] at this
          exact this
        have hjne : j ≠ p.id := by
          intro e
          exact hcase (by rw [hpo, e, beq_self_eq_true])
        rcases List.any_eq_true.mp hj with ⟨q, hq, hqid⟩
        refine List.any_eq_true.mpr ⟨q, List.mem_filter.mpr ⟨hq, ?_⟩, hqid⟩
        have hqj : q.id = j := beq_iff_eq.mp hqid
        simp [hqj, hjne]
  · intro c' hc'
    rcases List.mem_map.mp hc' with ⟨c0, _, hmap⟩
    by_cases hcase : (c0.post_id == some p.id) = true
    · rw [if_pos hcase] at hmap
      rw [← hmap]
      exact fun e => Option.noConfusion e
    · rw [if_neg hcase] at hmap
      rw [← hmap]
      exact fun e => hcase (by rw [e, beq_self_eq_true])
  · rw [post_exists]
    rw [List.any_eq_false]
    intro q hq
    have := (List.mem_filter.mp hq).2
    simpa using this

/-- Witness for C1: deleting the sample post, which has a comment, leaves
a store with the comment's parent key nulled and the invariant intact. -/
theorem delete_post_resolves_comment_refs_witness :
    currentUser ⟨sampleStore, some 1⟩ = some sampleAdmin ∧
    sampleAdmin.id = admin_id ∧
    getPost sampleStore 1 = some samplePost ∧
    comments_ref_ok sampleStore = true ∧
    comments_ref_ok (delete_post ⟨sampleStore, some 1⟩ 1).ctx.store = true ∧
    post_exists (delete_post ⟨sampleStore, some 1⟩ 1).ctx.store samplePost.id = false := by
  have h := delete_post_resolves_comment_refs ⟨sampleStore, some 1⟩ 1 samplePost sampleAdmin
    (by decide) (by decide) (by decide) (by decide)
  exact ⟨by decide, by decide, by decide, by decide, h.1, h.2.2⟩

/-- Claim C9: a valid comment submission by an authenticated user on a
post id with no post row still persists a comment keyed to that id — the
handler performs the lookup but never consults the result before writing —
so a comment referencing a nonexistent parent post is created, and the
creation-time referential invariant fails on the resulting store. -/
theorem comment_persists_on_missing_post (ctx : Ctx) (pid : Nat) (u : User)
    (text : String) (clock : Clock)
    (hu : currentUser ctx = some u) (habs : post_exists ctx.store pid = false) :
    (∃ c ∈ (show_post ctx pid text clock).ctx.store.comments, c.post_id = some pid) ∧
    post_exists (show_post ctx pid text clock).ctx.store pid = false ∧
    comments_ref_ok (show_post ctx pid text clock).ctx.store = false := by
  rw [show_post, hu]
  refine ⟨⟨_, List.mem_append.mpr (Or.inr (List.mem_cons_self _ _)), rfl⟩, habs, ?_⟩
  rw [comments_ref_ok, List.all_eq_false]
  refine ⟨_, List.mem_append.mpr (Or.inr (List.mem_cons_self _ _)), ?_⟩
  show ¬ post_exists _ pid = true
  rw [show post_exists { ctx.store with
      comments := ctx.store.comments ++ [_] } pid = post_exists ctx.store pid from rfl, habs]
  exact Bool.false_ne_true

/-- Witness for C9: the sample reader comments on the absent post id 42;
the dangling row is persisted and the invariant breaks. -/
theorem comment_persists_on_missing_post_witness :
    currentUser ⟨sampleStore, some 2⟩ = some sampleUser ∧
    post_exists sampleStore 42 = false ∧
    (∃ c ∈ (show_post ⟨sampleStore, some 2⟩ 42 "hello" sampleClock).ctx.store.comments,
      c.post_id = some 42) ∧
    comments_ref_ok (show_post ⟨sampleStore, some 2⟩ 42 "hello" sampleClock).ctx.store
      = false := by
  have h := comment_persists_on_missing_post ⟨sampleStore, some 2⟩ 42 sampleUser
    "hello" sampleClock (by decide) (by decide)
  exact ⟨by decide, by decide, h.1, h.2.2⟩

/-- Claim C10: the admin delete and edit operations on a post id with no
row do not fail soft with a NotFound (404) outcome: the null lookup result
is dereferenced, an unhandled error escapes the handler, and the store is
left unchanged. -/
theorem missing_post_admin_ops_raise (ctx : Ctx) (pid : Nat) (u : User)
    (hu : currentUser ctx = some u) (hadmin : u.id = admin_id)
    (habs : getPost ctx.store pid = none)
    (title subtitle body img_url : String) :
    delete_post ctx pid = { ctx := ctx, flashes := [], response := .exception } ∧
    edit_post ctx pid title subtitle body img_url
      = { ctx := ctx, flashes := [], response := .exception } ∧
    Response.exception ≠ Response.httpError 404 := by
  have h1 : delete_post ctx pid = delete_post_body ctx pid := by
    simp [delete_post, login_required, admin_only, hu, hadmin]
  have h2 : edit_post ctx pid title subtitle body img_url
      = edit_post_body ctx pid title subtitle body img_url := by
    simp [edit_post, login_required, admin_only, hu, hadmin]
  refine ⟨?_, ?_, by decide⟩
  · rw [h1, delete_post_body, habs]
  · rw [h2, edit_post_body, habs]

/-- Witness for C10: the admin hits the absent post id 42; both operations
raise and the store is untouched. -/
theorem missing_post_admin_ops_raise_witness :
    currentUser ⟨sampleStore, some 1⟩ = some sampleAdmin ∧
    sampleAdmin.id = admin_id ∧
    getPost sampleStore 42 = none ∧
    delete_post ⟨sampleStore, some 1⟩ 42
      = { ctx := ⟨sampleStore, some 1⟩, flashes := [], response := .exception } ∧
    edit_post ⟨sampleStore, some 1⟩ 42 "T" "S" "B" "I"
      = { ctx := ⟨sampleStore, some 1⟩, flashes := [], response := .exception } := by
  have h := missing_post_admin_ops_raise ⟨sampleStore, some 1⟩ 42 sampleAdmin
    (by decide) (by decide) (by decide) "T" "S" "B" "I"
  exact ⟨by decide, by decide, by decide, h.1, h.2.1⟩

end Blog

